import Mathlib

/-!
Verification of the credential-mode selection and endpoint-resolution core of
an S3-compatible object-storage access layer (a Node/Express application).

The embedding below translates the decision logic of the source file:
`getS3`, `getS3Hmac` (client construction), `findBucketEndpoint`
(region derivation and endpoint-directory lookup) and `configureEndpoint`
(the per-operation rebind step).  JavaScript runtime failures (`throw`,
`TypeError` on property access of `undefined`, `ReferenceError` on an
undeclared variable) are modelled with an explicit error type, and
JavaScript string primitives (`String.prototype.substring`,
`String.prototype.lastIndexOf`) are given faithful total definitions.
-/

/-- Errors a call in the source can reject with: an explicitly thrown
`new Error(msg)`, the runtime `TypeError` raised by a property access on
`undefined`, and the runtime `ReferenceError` raised by reading an
undeclared variable. -/
inductive JsError where
  | jsError (msg : String)
  | typeError (msg : String)
  | referenceError (msg : String)
deriving DecidableEq, Repr

/-- Index clamping performed by `String.prototype.substring`: a negative
argument becomes 0 and an argument past the end becomes the length. -/
def jsClampIndex (s : String) (i : Int) : Nat :=
  (max 0 (min i (s.length : Int))).toNat

/-- JavaScript `s.substring(start, stop)`: both indices are clamped into
`[0, s.length]` and swapped if out of order; the characters from the lower
to (excluding) the upper index are returned. -/
def jsSubstring (s : String) (start stop : Int) : String :=
  String.mk ((s.toList.drop (min (jsClampIndex s start) (jsClampIndex s stop))).take
    (max (jsClampIndex s start) (jsClampIndex s stop) - min (jsClampIndex s start) (jsClampIndex s stop)))

/-- Index of the last occurrence of `c` in a character list, if any. -/
def lastIdxOf (c : Char) : List Char → Option Nat
  | [] => none
  | x :: xs =>
    match lastIdxOf c xs with
    | some i => some (i + 1)
    | none => if x = c then some 0 else none

/-- JavaScript `s.lastIndexOf(c)`: the index of the last occurrence of `c`,
or `-1` when `c` does not occur in `s`. -/
def jsLastIndexOf (s : String) (c : Char) : Int :=
  match lastIdxOf c s.toList with
  | some i => (i : Int)
  | none => -1

/-- A bucket record as returned by the extended list-buckets call
(`Name`, `LocationConstraint`), together with the optional `region`
property the source consults first (absent on real responses). -/
structure Bucket where
  Name : String
  LocationConstraint : String
  region : Option String
deriving DecidableEq, Repr

/-- Response body of `listBucketsExtended`: an array of bucket records. -/
structure ListBucketsResponse where
  Buckets : List Bucket
deriving DecidableEq, Repr

/-- One region entry of the endpoint directory: its `public`
visibility-tag → URL mapping, which may be absent.  The source reads only
the `public` field, so the `private` mapping is not modelled.  Mappings are
association lists in JSON insertion order, matching the enumeration order
of `Object.keys` / `Object.values` on the parsed object. -/
structure RegionEntry where
  public : Option (List (String × String))
deriving DecidableEq, Repr

/-- The `service-endpoints` object of the directory document: one
region → entry mapping per locality class. -/
structure ServiceEndpoints where
  crossRegion : List (String × RegionEntry)
  regional : List (String × RegionEntry)
  singleSite : List (String × RegionEntry)
deriving DecidableEq, Repr

/-- The parsed endpoint-directory JSON document. -/
structure Endpoints where
  serviceEndpoints : ServiceEndpoints
deriving DecidableEq, Repr

/-- Line 127 of the source: `bucket.region ||
bucket.LocationConstraint.substring(0, bucket.LocationConstraint.lastIndexOf('-'))`.
The `||` takes `bucket.region` when it is truthy (present and non-empty)
and otherwise derives the region from the location constraint. -/
def regionOf (bucket : Bucket) : String :=
  match bucket.region with
  | some r =>
    if r = "" then
      jsSubstring bucket.LocationConstraint 0 (jsLastIndexOf bucket.LocationConstraint '-')
    else r
  | none =>
    jsSubstring bucket.LocationConstraint 0 (jsLastIndexOf bucket.LocationConstraint '-')

/-- The `TypeError` the source raises at `regionUrls.public` when no
locality class contains the region key (`regionUrls` is `undefined`).
This failure is what the specification names `RegionNotFoundError`. -/
def RegionNotFoundError : JsError :=
  JsError.typeError "Cannot read properties of undefined (reading 'public')"

/-- Lines 128–136 of `findBucketEndpoint`, with the region as a parameter
(the specification's `resolveURL(directory, region)`): look the region up
in `cross-region`, then `regional`, then `single-site` (`||` chain, first
present entry wins); raise a `TypeError` when all three lookups miss;
return `''` when the matched entry's `public` mapping is absent or empty,
and otherwise `Object.values(regionUrls.public)[0]`, its first value. -/
def resolveURL (serviceEndpoints : ServiceEndpoints) (region : String) : Except JsError String :=
  match (serviceEndpoints.crossRegion.lookup region).orElse
      (fun _ => (serviceEndpoints.regional.lookup region).orElse
        (fun _ => serviceEndpoints.singleSite.lookup region)) with
  | none => Except.error RegionNotFoundError
  | some regionUrls =>
    match regionUrls.public with
    | none => Except.ok ""
    | some [] => Except.ok ""
    | some ((_, url) :: _) => Except.ok url

/-- Lines 126–137 of the source: derive the region from the bucket record,
extract `endpoints['service-endpoints']` and resolve the public URL. -/
def findBucketEndpoint (bucket : Bucket) (endpoints : Endpoints) : Except JsError String :=
  resolveURL endpoints.serviceEndpoints (regionOf bucket)

/-- HMAC key pair inside a service credential (`cos_hmac_keys`). -/
structure HmacKeys where
  access_key_id : String
  secret_access_key : String
deriving DecidableEq, Repr

/-- A service-credential bundle as consumed by the source: an `apikey`
(empty string models a missing/falsy key), the optional `cos_hmac_keys`
object, and the `resource_instance_id`.  The fields the source never
branches on (endpoint-directory URL, descriptive CRNs) are not modelled. -/
structure ServiceCredential where
  apikey : String
  cos_hmac_keys : Option HmacKeys
  resource_instance_id : String
deriving DecidableEq, Repr

/-- The options object an S3 client handle is built from, with the mutable
`endpoint` field the rebind step overwrites.  IAM-mode construction sets
`apiKeyId`/`serviceInstanceId`; HMAC-mode construction sets
`accessKeyId`/`secretAccessKey`; the other pair stays absent. -/
structure S3 where
  apiKeyId : Option String
  serviceInstanceId : Option String
  accessKeyId : Option String
  secretAccessKey : Option String
  region : String
  endpoint : String
deriving DecidableEq, Repr

/-- Lines 55–78 of the source (`getS3`): when `serviceCredential.apikey`
is truthy, build IAM-mode options binding `apiKeyId` from the apikey,
`serviceInstanceId` from `resource_instance_id` and the fixed region
`'ibm'`; otherwise throw `Error('IAM ApiKey required to create S3 Client')`.
The HMAC fields of the credential are never consulted. -/
def getS3 (endpoint : String) (serviceCredential : ServiceCredential) : Except JsError S3 :=
  if serviceCredential.apikey ≠ "" then
    Except.ok
      { apiKeyId := some serviceCredential.apikey
        serviceInstanceId := some serviceCredential.resource_instance_id
        accessKeyId := none
        secretAccessKey := none
        region := "ibm"
        endpoint := endpoint }
  else
    Except.error (JsError.jsError "IAM ApiKey required to create S3 Client")

/-- Lines 80–102 of the source (`getS3Hmac`): when
`serviceCredential.cos_hmac_keys` is present with a truthy
`access_key_id`, build HMAC-mode options binding `accessKeyId` and
`secretAccessKey` and the fixed region `'ibm'`; otherwise throw
`Error('HMAC credentials required to create S3 Client using HMAC')`. -/
def getS3Hmac (endpoint : String) (serviceCredential : ServiceCredential) : Except JsError S3 :=
  match serviceCredential.cos_hmac_keys with
  | some hk =>
    if hk.access_key_id ≠ "" then
      Except.ok
        { apiKeyId := none
          serviceInstanceId := none
          accessKeyId := some hk.access_key_id
          secretAccessKey := some hk.secret_access_key
          region := "ibm"
          endpoint := endpoint }
    else
      Except.error (JsError.jsError "HMAC credentials required to create S3 Client using HMAC")
  | none =>
    Except.error (JsError.jsError "HMAC credentials required to create S3 Client using HMAC")

/-- Lines 225–232 of the source (`configureEndpoint`), the rebind step.
The outcome of the `listBuckets` network call is passed in explicitly as
`listResp`.  On a rejected call the source's `.catch` handler runs
`res.send(err)`, but no `res` is in scope in `configureEndpoint`, so the
handler itself raises `ReferenceError: res is not defined`, which becomes
the rejection of the whole call — the original error is discarded.  On a
fulfilled call, `Buckets[0]` of an empty array is `undefined`, so
`findBucketEndpoint` raises a `TypeError` at `bucket.region`; otherwise
the resolved URL is assigned in place to `s3.endpoint`. -/
def configureEndpoint (s3 : S3) (listResp : Except JsError ListBucketsResponse)
    (endpoints : Endpoints) : Except JsError S3 :=
  match listResp with
  | Except.error _ => Except.error (JsError.referenceError "res is not defined")
  | Except.ok bucketsData =>
    match bucketsData.Buckets.head? with
    | none => Except.error (JsError.typeError "Cannot read properties of undefined (reading 'region')")
    | some myBucket =>
      (findBucketEndpoint myBucket endpoints).map (fun url => { s3 with endpoint := url })

theorem lastIdxOf_eq_none {c : Char} {l : List Char} (h : c ∉ l) : lastIdxOf c l = none := by
  induction l with
  | nil => rfl
  | cons x xs ih =>
    simp only [List.mem_cons, not_or] at h
    simp [lastIdxOf, ih h.2, Ne.symm h.1]

theorem lastIdxOf_append_last (c : Char) (l₁ l₂ : List Char) (h : c ∉ l₂) :
    lastIdxOf c (l₁ ++ c :: l₂) = some l₁.length := by
  induction l₁ with
  | nil => simp [lastIdxOf, lastIdxOf_eq_none h]
  | cons x l₁ ih => simp [lastIdxOf, ih]

theorem jsLastIndexOf_split (pre suf : String) (h : '-' ∉ suf.toList) :
    jsLastIndexOf (pre ++ "-" ++ suf) '-' = (pre.length : Int) := by
  have h1 : (pre ++ "-" ++ suf).toList = pre.toList ++ '-' :: suf.toList := by
    simp [String.toList]
  unfold jsLastIndexOf
  rw [h1, lastIdxOf_append_last '-' _ _ h]
  rfl


theorem jsSubstring_zero_nat (s : String) (n : Nat) (h : n ≤ s.length) :
    jsSubstring s 0 (n : Int) = String.mk (s.toList.take n) := by
  have h0 : jsClampIndex s 0 = 0 := by unfold jsClampIndex; omega
  have hn : jsClampIndex s (n : Int) = n := by unfold jsClampIndex; omega
  unfold jsSubstring
  rw [h0, hn]
  simp

theorem jsSubstring_zero_neg_one (s : String) : jsSubstring s 0 (-1) = "" := by
  have h0 : jsClampIndex s 0 = 0 := by unfold jsClampIndex; omega
  have h1 : jsClampIndex s (-1) = 0 := by unfold jsClampIndex; omega
  unfold jsSubstring
  rw [h0, h1]
  rfl

theorem regionOf_derive_of_split (b : Bucket) (pre suf : String) (hr : b.region = none)
    (hs : '-' ∉ suf.toList) (hlc : b.LocationConstraint = pre ++ "-" ++ suf) :
    regionOf b = pre := by
  have hle : pre.length ≤ (pre ++ "-" ++ suf).length := by
    simp only [String.length_append]
    omega
  unfold regionOf
  rw [hr, hlc, jsLastIndexOf_split pre suf hs, jsSubstring_zero_nat _ _ hle]
  have h1 : (pre ++ "-" ++ suf).toList = pre.toList ++ '-' :: suf.toList := by
    simp [String.toList]
  rw [h1]
  have h2 : (pre.toList ++ '-' :: suf.toList).take pre.length = pre.toList :=
    List.take_left pre.toList ('-' :: suf.toList)
  rw [h2]
  rfl

/-- C1: for a bucket descriptor whose `region` field is not set, the region
is the substring of `locationConstraint` from index 0 up to (excluding) the
last hyphen — equivalently, writing the constraint as `pre ++ "-" ++ suf`
with a hyphen-free `suf`, the derived region is `pre`; for
`"us-south-standard"` it is `"us-south"`; and an explicitly set (non-empty)
`region` is used verbatim. -/
theorem regionOf_derivation_and_override (b : Bucket) (pre suf r : String) :
    (b.region = none → '-' ∉ suf.toList → b.LocationConstraint = pre ++ "-" ++ suf →
      regionOf b = pre)
    ∧ (b.region = some r → r ≠ "" → regionOf b = r)
    ∧ regionOf { Name := "test", LocationConstraint := "us-south-standard", region := none }
        = "us-south" := by
  refine ⟨?_, ?_, by decide⟩
  · intro hr hs hlc
    exact regionOf_derive_of_split b pre suf hr hs hlc
  · intro hr hne
    unfold regionOf
    rw [hr]
    simp [hne]

/-- Closed instance of `regionOf_derivation_and_override`: derivation on
`"eu-de-standard"` and the explicit override. -/
theorem regionOf_derivation_and_override_witness :
    regionOf { Name := "b1", LocationConstraint := "eu-de-standard", region := none } = "eu-de"
    ∧ regionOf { Name := "b2", LocationConstraint := "x", region := some "ap" } = "ap" :=
  ⟨(regionOf_derivation_and_override
      { Name := "b1", LocationConstraint := "eu-de-standard", region := none }
      "eu-de" "standard" "").1 rfl (by decide) (by decide),
   (regionOf_derivation_and_override
      { Name := "b2", LocationConstraint := "x", region := some "ap" }
      "" "" "ap").2.1 rfl (by decide)⟩

/-- C2: `resolveURL` consults `cross-region`, then `regional`, then
`single-site`, in that fixed priority order, the first present entry
winning, and returns the first value of the matched entry's `public`
mapping; and on the directory with
`regional.us-south.public = \x7b default: https://s3.us-south.example.com \x7d`
the region `"us-south"` resolves to that URL. -/
theorem resolveURL_priority_first_public (se : ServiceEndpoints) (region url k : String)
    (e : RegionEntry) (rest : List (String × String)) :
    (e.public = some ((k, url) :: rest) →
      ((se.crossRegion.lookup region = some e → resolveURL se region = Except.ok url)
      ∧ (se.crossRegion.lookup region = none → se.regional.lookup region = some e →
          resolveURL se region = Except.ok url)
      ∧ (se.crossRegion.lookup region = none → se.regional.lookup region = none →
          se.singleSite.lookup region = some e → resolveURL se region = Except.ok url)))
    ∧ resolveURL
        { crossRegion := []
          regional := [("us-south", { public := some [("default", "https://s3.us-south.example.com")] })]
          singleSite := [] } "us-south" = Except.ok "https://s3.us-south.example.com" := by
  refine ⟨?_, rfl⟩
  intro hp
  refine ⟨?_, ?_, ?_⟩
  · intro h1
    simp [resolveURL, Option.orElse, h1, hp]
  · intro h1 h2
    simp [resolveURL, Option.orElse, h1, h2, hp]
  · intro h1 h2 h3
    simp [resolveURL, Option.orElse, h1, h2, h3, hp]

/-- Closed instance of `resolveURL_priority_first_public`: a region found
in the `regional` class after a `cross-region` miss resolves to the first
`public` value. -/
theorem resolveURL_priority_first_public_witness :
    resolveURL
      { crossRegion := []
        regional := [("eu-de", { public := some [("default", "https://cos-eu-de.example.com")] })]
        singleSite := [] } "eu-de" = Except.ok "https://cos-eu-de.example.com" :=
  ((resolveURL_priority_first_public
      { crossRegion := []
        regional := [("eu-de", { public := some [("default", "https://cos-eu-de.example.com")] })]
        singleSite := [] }
      "eu-de" "https://cos-eu-de.example.com" "default"
      { public := some [("default", "https://cos-eu-de.example.com")] } []).1 rfl).2.1 rfl rfl

/-- C3 (code bug): when the list-buckets call of a rebind fails, the
original error is NOT surfaced to the caller.  The `.catch` handler of
`configureEndpoint` runs `res.send(err)` with no `res` in scope, so every
list-buckets failure — whatever it was — is replaced by
`ReferenceError: res is not defined`. -/
theorem configureEndpoint_replaces_listBuckets_error (s3 : S3) (err : JsError)
    (endpoints : Endpoints) :
    configureEndpoint s3 (Except.error err) endpoints
      = Except.error (JsError.referenceError "res is not defined") := rfl

/-- C4 counterexample: region derivation on a hyphen-free
`locationConstraint` does not fail at all — it yields the empty string —
and the subsequent lookup can even succeed, when a directory happens to
contain the empty string as a region key.  No `MalformedLocationError`
exists anywhere on this path. -/
theorem regionOf_no_hyphen_no_failure :
    regionOf { Name := "b", LocationConstraint := "noseparator", region := none } = ""
    ∧ findBucketEndpoint { Name := "b", LocationConstraint := "noseparator", region := none }
        { serviceEndpoints :=
          { crossRegion := [("", { public := some [("default", "https://example.com")] })]
            regional := []
            singleSite := [] } } = Except.ok "https://example.com" :=
  ⟨by decide, rfl⟩

/-- C4 amended: for a bucket with no explicit `region` and no hyphen in
its `locationConstraint`, derivation succeeds with the empty-string
region (`substring(0, -1)` is `""`), and endpoint resolution then fails —
with the region-not-found `TypeError`, not a distinct
`MalformedLocationError` — exactly when no locality class has the empty
string as a key. -/
theorem regionOf_no_hyphen_empty_region (b : Bucket) (endpoints : Endpoints)
    (hr : b.region = none) (hh : '-' ∉ b.LocationConstraint.toList) :
    regionOf b = ""
    ∧ (endpoints.serviceEndpoints.crossRegion.lookup "" = none →
       endpoints.serviceEndpoints.regional.lookup "" = none →
       endpoints.serviceEndpoints.singleSite.lookup "" = none →
       findBucketEndpoint b endpoints = Except.error RegionNotFoundError) := by
  have hreg : regionOf b = "" := by
    unfold regionOf
    rw [hr]
    unfold jsLastIndexOf
    rw [lastIdxOf_eq_none hh]
    exact jsSubstring_zero_neg_one b.LocationConstraint
  refine ⟨hreg, ?_⟩
  intro h1 h2 h3
  unfold findBucketEndpoint
  rw [hreg]
  simp [resolveURL, Option.orElse, h1, h2, h3]

/-- Closed instance of `regionOf_no_hyphen_empty_region`: the constraint
`"noseparator"` against a directory with no empty-string region key fails
with the region-not-found `TypeError`. -/
theorem regionOf_no_hyphen_empty_region_witness :
    findBucketEndpoint { Name := "b", LocationConstraint := "noseparator", region := none }
      { serviceEndpoints :=
        { crossRegion := [("us", { public := none })], regional := [], singleSite := [] } }
      = Except.error RegionNotFoundError :=
  (regionOf_no_hyphen_empty_region
      { Name := "b", LocationConstraint := "noseparator", region := none }
      { serviceEndpoints :=
        { crossRegion := [("us", { public := none })], regional := [], singleSite := [] } }
      rfl (by decide)).2 rfl rfl rfl

/-- C5: when none of the three locality classes contains the region key,
`resolveURL` fails with the region-not-found failure (the `TypeError` the
specification names `RegionNotFoundError`). -/
theorem resolveURL_region_not_found (se : ServiceEndpoints) (region : String)
    (h1 : se.crossRegion.lookup region = none) (h2 : se.regional.lookup region = none)
    (h3 : se.singleSite.lookup region = none) :
    resolveURL se region = Except.error RegionNotFoundError := by
  simp [resolveURL, Option.orElse, h1, h2, h3]

/-- Closed instance of `resolveURL_region_not_found`: an unknown region on
a non-empty directory. -/
theorem resolveURL_region_not_found_witness :
    resolveURL
      { crossRegion := [("us", { public := some [("default", "https://cos-us.example.com")] })]
        regional := []
        singleSite := [] } "mars" = Except.error RegionNotFoundError :=
  resolveURL_region_not_found
    { crossRegion := [("us", { public := some [("default", "https://cos-us.example.com")] })]
      regional := []
      singleSite := [] } "mars" rfl rfl rfl

/-- C6: when the matched region entry has an absent or empty `public`
mapping, resolution returns the empty string — an `Except.ok` value, not
an error. -/
theorem resolveURL_empty_public_empty_string (se : ServiceEndpoints) (region : String)
    (e : RegionEntry)
    (hmatch : se.crossRegion.lookup region = some e
      ∨ (se.crossRegion.lookup region = none ∧ se.regional.lookup region = some e)
      ∨ (se.crossRegion.lookup region = none ∧ se.regional.lookup region = none
          ∧ se.singleSite.lookup region = some e))
    (hp : e.public = none ∨ e.public = some []) :
    resolveURL se region = Except.ok "" := by
  rcases hmatch with h | ⟨h1, h2⟩ | ⟨h1, h2, h3⟩ <;> rcases hp with hp | hp <;>
    simp [resolveURL, Option.orElse, *]

/-- Closed instance of `resolveURL_empty_public_empty_string`: an absent
`public` mapping and an empty one both yield `""`. -/
theorem resolveURL_empty_public_empty_string_witness :
    resolveURL
      { crossRegion := [("ap", { public := none })], regional := [], singleSite := [] }
      "ap" = Except.ok ""
    ∧ resolveURL
      { crossRegion := [], regional := [("ap", { public := some [] })], singleSite := [] }
      "ap" = Except.ok "" :=
  ⟨resolveURL_empty_public_empty_string
      { crossRegion := [("ap", { public := none })], regional := [], singleSite := [] }
      "ap" { public := none } (Or.inl rfl) (Or.inl rfl),
   resolveURL_empty_public_empty_string
      { crossRegion := [], regional := [("ap", { public := some [] })], singleSite := [] }
      "ap" { public := some [] } (Or.inr (Or.inl ⟨rfl, rfl⟩)) (Or.inr rfl)⟩

/-- C7: for any credential with a non-empty `apikey`, `getS3` (the client
construction the listener invokes) selects IAM mode, binding `apiKeyId`
from the apikey and `serviceInstanceId` from `resource_instance_id`,
regardless of any HMAC fields present in the credential (the credential is
universally quantified, so `cos_hmac_keys` may hold anything). -/
theorem getS3_selects_iam (endpoint : String) (c : ServiceCredential) (h : c.apikey ≠ "") :
    getS3 endpoint c = Except.ok
      { apiKeyId := some c.apikey
        serviceInstanceId := some c.resource_instance_id
        accessKeyId := none
        secretAccessKey := none
        region := "ibm"
        endpoint := endpoint } := by
  simp [getS3, h]

/-- Closed instance of `getS3_selects_iam`: a credential that also carries
HMAC keys still resolves to IAM mode. -/
theorem getS3_selects_iam_witness :
    getS3 "s3.us.cloud-object-storage.appdomain.cloud"
      { apikey := "K"
        cos_hmac_keys := some { access_key_id := "AK", secret_access_key := "SK" }
        resource_instance_id := "R" }
      = Except.ok
        { apiKeyId := some "K"
          serviceInstanceId := some "R"
          accessKeyId := none
          secretAccessKey := none
          region := "ibm"
          endpoint := "s3.us.cloud-object-storage.appdomain.cloud" } :=
  getS3_selects_iam "s3.us.cloud-object-storage.appdomain.cloud"
    { apikey := "K"
      cos_hmac_keys := some { access_key_id := "AK", secret_access_key := "SK" }
      resource_instance_id := "R" } (by decide)

/-- C8 counterexample: for a credential with an empty `apikey` and
populated HMAC fields, the program's client construction does NOT select
HMAC mode — the listener always calls `getS3`, which throws
`Error('IAM ApiKey required to create S3 Client')` on an empty apikey.
(`getS3Hmac` exists but is never invoked anywhere in the program.) -/
theorem getS3_hmac_only_credential_fails :
    getS3 "s3.us.cloud-object-storage.appdomain.cloud"
      { apikey := ""
        cos_hmac_keys := some { access_key_id := "AK", secret_access_key := "SK" }
        resource_instance_id := "" }
      = Except.error (JsError.jsError "IAM ApiKey required to create S3 Client") := rfl

/-- C8 amended: the unused helper `getS3Hmac`, given a credential with a
non-empty HMAC access key id, does select HMAC mode, binding `accessKeyId`
and `secretAccessKey` from the credential; but the construction path the
program actually runs (`getS3`) fails on an empty `apikey` instead of
falling back to HMAC. -/
theorem getS3Hmac_selects_hmac (endpoint : String) (c : ServiceCredential) (hk : HmacKeys)
    (hc : c.cos_hmac_keys = some hk) (h : hk.access_key_id ≠ "") :
    getS3Hmac endpoint c = Except.ok
      { apiKeyId := none
        serviceInstanceId := none
        accessKeyId := some hk.access_key_id
        secretAccessKey := some hk.secret_access_key
        region := "ibm"
        endpoint := endpoint }
    ∧ (c.apikey = "" →
        getS3 endpoint c
          = Except.error (JsError.jsError "IAM ApiKey required to create S3 Client")) := by
  constructor
  · simp [getS3Hmac, hc, h]
  · intro ha
    simp [getS3, ha]

/-- Closed instance of `getS3Hmac_selects_hmac` on an HMAC-only
credential. -/
theorem getS3Hmac_selects_hmac_witness :
    getS3Hmac "ep"
      { apikey := ""
        cos_hmac_keys := some { access_key_id := "AK", secret_access_key := "SK" }
        resource_instance_id := "" }
      = Except.ok
        { apiKeyId := none
          serviceInstanceId := none
          accessKeyId := some "AK"
          secretAccessKey := some "SK"
          region := "ibm"
          endpoint := "ep" }
    ∧ getS3 "ep"
        { apikey := ""
          cos_hmac_keys := some { access_key_id := "AK", secret_access_key := "SK" }
          resource_instance_id := "" }
        = Except.error (JsError.jsError "IAM ApiKey required to create S3 Client") := by
  have h := getS3Hmac_selects_hmac "ep"
    { apikey := ""
      cos_hmac_keys := some { access_key_id := "AK", secret_access_key := "SK" }
      resource_instance_id := "" }
    { access_key_id := "AK", secret_access_key := "SK" } rfl (by decide)
  exact ⟨h.1, h.2 rfl⟩

/-- C9: rebinding twice with the same bucket name, the same endpoint
directory and the same list-buckets response yields an identical endpoint:
a successful `configureEndpoint` is idempotent — running it again on its
own result returns that result unchanged. -/
theorem configureEndpoint_idempotent (s3 s3' : S3)
    (listResp : Except JsError ListBucketsResponse) (endpoints : Endpoints)
    (h : configureEndpoint s3 listResp endpoints = Except.ok s3') :
    configureEndpoint s3' listResp endpoints = Except.ok s3' := by
  cases listResp with
  | error e => simp [configureEndpoint] at h
  | ok bucketsData =>
    cases hb : bucketsData.Buckets.head? with
    | none => simp [configureEndpoint, hb] at h
    | some myBucket =>
      cases hf : findBucketEndpoint myBucket endpoints with
      | error e => simp [configureEndpoint, hb, hf, Except.map] at h
      | ok url =>
        simp only [configureEndpoint, hb, hf, Except.map, Except.ok.injEq] at h ⊢
        rw [← h]

/-- Closed instance of `configureEndpoint_idempotent`: a handle already
bound to the resolved endpoint rebinds to itself. -/
theorem configureEndpoint_idempotent_witness :
    configureEndpoint
      { apiKeyId := some "K", serviceInstanceId := some "R", accessKeyId := none
        secretAccessKey := none, region := "ibm", endpoint := "https://s3.us-south.example.com" }
      (Except.ok { Buckets := [{ Name := "b1", LocationConstraint := "us-south-standard", region := none }] })
      { serviceEndpoints :=
        { crossRegion := []
          regional := [("us-south", { public := some [("default", "https://s3.us-south.example.com")] })]
          singleSite := [] } }
      = Except.ok
        { apiKeyId := some "K", serviceInstanceId := some "R", accessKeyId := none
          secretAccessKey := none, region := "ibm", endpoint := "https://s3.us-south.example.com" } :=
  configureEndpoint_idempotent
    { apiKeyId := some "K", serviceInstanceId := some "R", accessKeyId := none
      secretAccessKey := none, region := "ibm", endpoint := "s3.us.cloud-object-storage.appdomain.cloud" }
    { apiKeyId := some "K", serviceInstanceId := some "R", accessKeyId := none
      secretAccessKey := none, region := "ibm", endpoint := "https://s3.us-south.example.com" }
    (Except.ok { Buckets := [{ Name := "b1", LocationConstraint := "us-south-standard", region := none }] })
    { serviceEndpoints :=
      { crossRegion := []
        regional := [("us-south", { public := some [("default", "https://s3.us-south.example.com")] })]
        singleSite := [] } }
    rfl

/-- C10: a successful rebind mutates only the `endpoint` field of the
handle — credentials (`apiKeyId`, `serviceInstanceId`, `accessKeyId`,
`secretAccessKey`) and the `region` binding are unchanged. -/
theorem configureEndpoint_frame (s3 s3' : S3)
    (listResp : Except JsError ListBucketsResponse) (endpoints : Endpoints)
    (h : configureEndpoint s3 listResp endpoints = Except.ok s3') :
    s3'.apiKeyId = s3.apiKeyId ∧ s3'.serviceInstanceId = s3.serviceInstanceId
    ∧ s3'.accessKeyId = s3.accessKeyId ∧ s3'.secretAccessKey = s3.secretAccessKey
    ∧ s3'.region = s3.region := by
  cases listResp with
  | error e => simp [configureEndpoint] at h
  | ok bucketsData =>
    cases hb : bucketsData.Buckets.head? with
    | none => simp [configureEndpoint, hb] at h
    | some myBucket =>
      cases hf : findBucketEndpoint myBucket endpoints with
      | error e => simp [configureEndpoint, hb, hf, Except.map] at h
      | ok url =>
        simp only [configureEndpoint, hb, hf, Except.map, Except.ok.injEq] at h
        rw [← h]
        exact ⟨rfl, rfl, rfl, rfl, rfl⟩

/-- Closed instance of `configureEndpoint_frame` on a concrete rebind. -/
theorem configureEndpoint_frame_witness :
    (some "K" : Option String) = some "K" ∧ (some "R" : Option String) = some "R"
    ∧ (none : Option String) = none ∧ (none : Option String) = none
    ∧ "ibm" = "ibm" :=
  configureEndpoint_frame
    { apiKeyId := some "K", serviceInstanceId := some "R", accessKeyId := none
      secretAccessKey := none, region := "ibm", endpoint := "s3.us.cloud-object-storage.appdomain.cloud" }
    { apiKeyId := some "K", serviceInstanceId := some "R", accessKeyId := none
      secretAccessKey := none, region := "ibm", endpoint := "https://s3.us-south.example.com" }
    (Except.ok { Buckets := [{ Name := "b1", LocationConstraint := "us-south-standard", region := none }] })
    { serviceEndpoints :=
      { crossRegion := []
        regional := [("us-south", { public := some [("default", "https://s3.us-south.example.com")] })]
        singleSite := [] } }
    rfl
